import Mathlib

/-
Verification of the dualis-scanner worker (src/src/worker.py) against its
natural-language specification.

The worker drives a browser session: it logs in to a university portal,
iterates semesters and course rows, opens one secondary window per course,
parses the exam table inside that window, and accumulates typed Course
records together with retry/failure counters.

Shallow embedding conventions:
  - Python strings are Lean `String`s; character-level operations work on
    `String.data` (a `List Char`).
  - Python floats are modeled as exact rationals (`Rat`); every grade string
    in scope has an exact decimal value, and no claim depends on IEEE
    rounding.
  - Fallible Python code (exceptions) is modeled with `Except PyErr`;
    a `try/except E: pass` appears as a `match` that maps `.error E` back
    to the fallthrough value.
  - Side-effecting browser state (which windows are open) is modeled as an
    explicit environment: a function `wins : Nat -> Nat` giving the number
    of open window handles after `k` clicks of the trigger cell, and a
    `WinState` record of open handles plus the focused handle.
  - `while` loops over a counter `i < tries` are written with an explicit
    fuel argument equal to `tries - i`, so definitions stay structural and
    evaluate by `rfl`/`decide`.
-/

/-- Python exception classes that the worker can raise or catch:
`ValueError` (bad int()/float() argument), `AttributeError` (missing
attribute on the argparse namespace), `IndexError` (list index out of
range), and Selenium's `NoSuchElementException`. -/
inductive PyErr where
  | valueError
  | attributeError
  | indexError
  | noSuchElement
deriving DecidableEq

/-- Python list indexing `l[n]` for `n >= 0`: raises IndexError when out of
range. -/
def pyIndexE {α : Type} (l : List α) (n : Nat) : Except PyErr α :=
  match l[n]? with
  | some a => .ok a
  | none => .error .indexError

/-- ASCII whitespace, the characters removed by Python `str.strip()`
(Python also strips some further Unicode space characters; no string in
scope contains them). -/
def pyIsSpace (c : Char) : Bool :=
  c = ' ' || c = '\t' || c = '\n' || c = '\r' || c = '\x0b' || c = '\x0c'

/-- Python `str.strip()`: remove leading and trailing whitespace. -/
def pyStrip (s : String) : String :=
  ⟨((s.data.dropWhile pyIsSpace).reverse.dropWhile pyIsSpace).reverse⟩

/-- Python `s.startswith(pre)`. -/
def pyStartswith (s pre : String) : Bool :=
  pre.data.isPrefixOf s.data

/-- Python slicing `s[n:]` (for nonnegative `n`). -/
def pyDropStr (n : Nat) (s : String) : String :=
  ⟨s.data.drop n⟩

/-- Substring search on character lists: does `needle` occur contiguously
inside `hay`? -/
def listHasSub (needle : List Char) : List Char → Bool
  | [] => needle.isEmpty
  | c :: t => needle.isPrefixOf (c :: t) || listHasSub needle t

/-- Python `needle in hay` for strings: substring containment. -/
def pyInStr (needle hay : String) : Bool :=
  listHasSub needle.data hay.data

/-- The character map applied by `string.replace(',', '.')`. -/
def commaToDot (c : Char) : Char :=
  if c = ',' then '.' else c

/-- Python `string.replace(',', '.')`: since both pattern and replacement
are single characters, this is a character map. -/
def pyReplaceCommaDot (s : String) : String :=
  ⟨s.data.map commaToDot⟩

/-- Value of a digit string, most significant first. -/
def digitsVal (ds : List Char) : Nat :=
  ds.foldl (fun a c => 10 * a + (c.toNat - 48)) 0

/-- A nonempty all-digit string parses to its value; anything else fails. -/
def digitsToNat? (ds : List Char) : Option Nat :=
  if ds.isEmpty then none
  else if ds.all Char.isDigit then some (digitsVal ds) else none

/-- Model of Python `int(s)` restricted to decimal literals: strip
whitespace, optional sign, nonempty digit run.  (Underscore digit
separators are not modeled; no string in scope uses them.)  `none` models
`ValueError`. -/
def pyInt? (s : String) : Option Int :=
  match (pyStrip s).data with
  | '+' :: ds => (digitsToNat? ds).map Int.ofNat
  | '-' :: ds => (digitsToNat? ds).map (fun n => -(n : Int))
  | ds => (digitsToNat? ds).map Int.ofNat

/-- `get_int` from worker.py lines 89-95: try `int(string)`, and on
ValueError keep the initial value -1.  Total because the only exception
`int` raises here is the caught ValueError. -/
def get_int (string : String) : Int :=
  match pyInt? string with
  | some v => v
  | none => -1

/-- Consume a leading sign character, returning the sign and the rest. -/
def parseSign : List Char → Int × List Char
  | '+' :: t => (1, t)
  | '-' :: t => (-1, t)
  | l => (1, l)

/-- Split a leading digit run from the rest. -/
def takeDigits (l : List Char) : List Char × List Char :=
  (l.takeWhile Char.isDigit, l.dropWhile Char.isDigit)

/-- Exponent tail after the `e`/`E`: optional sign then a nonempty digit
run consuming the whole rest of the string. -/
def expTail (t : List Char) : Option Int :=
  let (sg, t1) := parseSign t
  let (ds, t2) := takeDigits t1
  if ds.isEmpty || !t2.isEmpty then none else some (sg * (digitsVal ds : Int))

/-- Optional exponent part: empty rest means exponent 0. -/
def parseExpPart : List Char → Option Int
  | [] => some 0
  | 'e' :: t => expTail t
  | 'E' :: t => expTail t
  | _ => none

/-- Mantissa of a float literal: `digits [. digits]` or `. digits`,
returning its exact rational value and the unconsumed rest. -/
def parseMantissa (l : List Char) : Option (Rat × List Char) :=
  let (ip, r1) := takeDigits l
  match r1 with
  | '.' :: r2 =>
    let (fp, r3) := takeDigits r2
    if ip.isEmpty && fp.isEmpty then none
    else some ((digitsVal ip : Rat) + (digitsVal fp : Rat) / ((10 : Rat) ^ fp.length), r3)
  | _ => if ip.isEmpty then none else some ((digitsVal ip : Rat), r1)

/-- Model of Python `float(s)` restricted to finite decimal literals:
strip whitespace, optional sign, mantissa, optional exponent.  (`inf`,
`nan` and underscore separators are outside the model; no string in scope
uses them.)  `none` models `ValueError`; values are exact rationals. -/
def pyFloat? (s : String) : Option Rat :=
  let l := (pyStrip s).data
  let (sg, l1) := parseSign l
  match parseMantissa l1 with
  | none => none
  | some (m, l2) =>
    match parseExpPart l2 with
    | none => none
    | some e => some ((sg : Rat) * m * (10 : Rat) ^ e)

/-- Python `float(s)` with its exception made explicit: unparseable input
raises ValueError. -/
def pyFloatExc (s : String) : Except PyErr Rat :=
  match pyFloat? s with
  | some v => .ok v
  | none => .error .valueError

/-- `get_float` from worker.py lines 98-104 with the exception machinery
explicit: `grade = -1; try: grade = float(string.replace(',', '.'))
except ValueError: pass; return grade`.  Only ValueError is caught; any
other exception would propagate. -/
def get_floatTry (string : String) : Except PyErr Rat :=
  match pyFloatExc (pyReplaceCommaDot string) with
  | .ok g => .ok g
  | .error .valueError => .ok (-1)
  | .error e => .error e

/-- Pure value of `get_float` (worker.py lines 98-104): the comma-to-dot
normalized string parsed as a float, or the sentinel -1 when the parse
raises ValueError. -/
def get_float (string : String) : Rat :=
  match pyFloat? (pyReplaceCommaDot string) with
  | some g => g
  | none => -1

/-- Modelled from the spec: `CourseCompletion` lives in the models module
(src only contains worker.py); spec section 3 enumerates
{Unknown, Passed, Failed}, and worker.py lines 172-177 reference all three
constructors. -/
inductive CourseCompletion where
  | Unknown
  | Passed
  | Failed
deriving DecidableEq

/-- Modelled from the spec: the `Exam` record of the models module, spec
section 3: {attemptNumber, name, date, status, grade}.  worker.py line 209
constructs it positionally in exactly this field order. -/
structure Exam where
  attemptNumber : Int
  name : String
  date : String
  status : String
  grade : Rat
deriving DecidableEq

/-- Modelled from the spec: the `Course` record of the models module, spec
section 3.  Field names `ID` and `Exams` follow the attribute accesses in
worker.py lines 183 and 215; the constructor at line 178 fills the fields
positionally in this order. -/
structure Course where
  ID : String
  name : String
  grade : Rat
  credits : Rat
  completion : CourseCompletion
  Exams : List Exam
deriving DecidableEq

/-- Completion status derivation, worker.py lines 172-177: start from
Unknown; if the stripped cell text is nonempty, it is Passed exactly when
it equals "bestanden", else Failed. -/
def completionFromRaw (text : String) : CourseCompletion :=
  if pyStrip text ≠ "" then
    if pyStrip text = "bestanden" then .Passed else .Failed
  else .Unknown

/-- A table cell as the worker sees it: its text and the value of its
`class` attribute.  (Selenium's `get_attribute("class")` returns the
`className` DOM property, which is a string for every HTML element.) -/
structure Cell where
  text : String
  cls : String
deriving DecidableEq

/-- Placeholder cell used only as the default of guarded `getD`/`headD`
accesses that the guards make unreachable. -/
def defaultCell : Cell := ⟨"", ""⟩

/-- `exam_data` of worker.py line 205: the stripped text of each cell of a
row. -/
def rowTexts (row : List Cell) : List String :=
  row.map (fun c => pyStrip c.text)

/-- The Exam record built at worker.py line 209 from a 6-cell data row:
`Exam(attempt, exam_data[0], exam_data[1], exam_data[2],
get_float(exam_data[3]))` (cells 4 and 5 are unused). -/
def examOfRow (attempt : Int) (row : List Cell) : Exam :=
  { attemptNumber := attempt
    name := (rowTexts row).getD 0 ""
    date := (rowTexts row).getD 1 ""
    status := (rowTexts row).getD 2 ""
    grade := get_float ((rowTexts row).getD 3 "") }

/-- The attempt number read from a header row, worker.py line 213:
`get_int(exam_data[0][8:])` - the text after index 8, e.g. "Versuch 1"
yields 1. -/
def headerAttempt (row : List Cell) : Int :=
  get_int (pyDropStr 8 ((rowTexts row).headD ""))

/-- Condition of worker.py line 208: the row has exactly 6 cells and the
first cell's class attribute contains "tbdata". -/
def isDataRow (row : List Cell) : Bool :=
  (rowTexts row).length == 6 && pyInStr "tbdata" (row.headD defaultCell).cls

/-- Condition of worker.py line 212: the row has at least one cell and the
first cell's stripped text starts with "Versuch". -/
def isVersuchRow (row : List Cell) : Bool :=
  (rowTexts row).length != 0 && pyStartswith ((rowTexts row).headD "") "Versuch"

/-- The exam-table parsing loop, worker.py lines 201-213: fold over the
rows carrying the current attempt context (initially -1).  A marked 6-cell
row emits an Exam and `continue`s; otherwise a row whose first text starts
with "Versuch" updates the attempt context; every other row is skipped. -/
def parseExamRows : List (List Cell) → Int → List Exam
  | [], _ => []
  | row :: rest, attempt =>
    if isDataRow row then examOfRow attempt row :: parseExamRows rest attempt
    else if isVersuchRow row then parseExamRows rest (headerAttempt row)
    else parseExamRows rest attempt

/-- Header row in the sense of the spec's exam-parsing description: a row
that is not a marked data row and whose first cell's text starts with the
known prefix.  (A row matching the data-row shape is consumed by the
data-row branch first, so it is not a header.) -/
def isHeaderRow (row : List Cell) : Bool :=
  !isDataRow row && isVersuchRow row

/-- Attempt-number context after a list of already-seen rows, following the
spec's words: the numeric suffix of the most recent header row seen so
far, or -1 if none has been seen yet. -/
def lastHeaderCtx (past : List (List Cell)) : Int :=
  match past.reverse.find? isHeaderRow with
  | some h => headerAttempt h
  | none => -1

/-- Exam parsing as the spec describes it: walk the rows in order keeping
the list of rows already seen; each marked 6-cell data row emits one Exam
tagged with the attempt number of the most recent preceding header row
(-1 if none); all other rows produce nothing. -/
def specExamsGo : List (List Cell) → List (List Cell) → List Exam
  | _, [] => []
  | past, r :: rs =>
    (if isDataRow r then [examOfRow (lastHeaderCtx past) r] else []) ++
      specExamsGo (past ++ [r]) rs

/-- Spec-side exam parser over a full row list (no rows seen yet). -/
def specExams (rows : List (List Cell)) : List Exam :=
  specExamsGo [] rows

/-- The login-page retry loop, worker.py lines 119-140:
`i = 0; while i < windowTries: navigate; wait; if the username field is
present: pageOpened = True; break; i += 1`.  `found j` is the environment:
whether the field is present on the attempt with 0-based index `j`.  The
fuel argument equals `windowTries - i`, so `fuel = 0` is the exit of the
`i < windowTries` guard.  Returns the final `i` (assigned to `retries` at
line 140) and `pageOpened`. -/
def loginPageLoopAux (found : Nat → Bool) : Nat → Nat → Nat × Bool
  | 0, i => (i, false)
  | fuel + 1, i => if found i then (i, true) else loginPageLoopAux found fuel (i + 1)

/-- Entry point of the login-page retry loop with `i = 0`. -/
def loginPageLoop (tries : Nat) (found : Nat → Bool) : Nat × Bool :=
  loginPageLoopAux found tries 0

/-- The course-window retry loop, worker.py lines 181-189:
`i = 0; while i < windowTries and len(window_handles) == 1:
course_data[5].click(); wait; i += 1; if len(window_handles) != 1: break`.
`wins k` is the environment: the number of open window handles after `k`
clicks of the trigger cell.  The click itself is `course_data[5]`, an
IndexError when the row has fewer than 6 cells.  The fuel argument equals
`windowTries - i`.  Returns the final `i`, the number of clicks consumed
(added to `retries` at line 191). -/
def openWindowLoopAux (cells : List Cell) (wins : Nat → Nat) : Nat → Nat → Except PyErr Nat
  | 0, i => .ok i
  | fuel + 1, i =>
    if wins i = 1 then
      match pyIndexE cells 5 with
      | .error e => .error e
      | .ok _ =>
        if wins (i + 1) ≠ 1 then .ok (i + 1)
        else openWindowLoopAux cells wins fuel (i + 1)
    else .ok i

/-- Entry point of the course-window retry loop with `i = 0`. -/
def openWindowLoop (tries : Nat) (cells : List Cell) (wins : Nat → Nat) : Except PyErr Nat :=
  openWindowLoopAux cells wins tries 0

/-- The spec's `openSecondaryWindow` contract read off worker.py lines
181-193: run the retry loop, then report `(opened, attemptsUsed)` where
`opened` is the line-193 check `len(window_handles) == 1` negated. -/
def openSecondaryWindow (tries : Nat) (cells : List Cell) (wins : Nat → Nat) :
    Except PyErr (Bool × Nat) :=
  match openWindowLoop tries cells wins with
  | .error e => .error e
  | .ok i => .ok (wins i != 1, i)

/-- The browser's window state: the list of open window handles (handles
are distinct by construction in a real browser) and the currently focused
handle. -/
structure WinState where
  handles : List Nat
  current : Nat

/-- `driver.switch_to.window(w)`: focus the window with handle `w`. -/
def switchTo (s : WinState) (w : Nat) : WinState :=
  { s with current := w }

/-- `driver.close()`: close the currently focused window. -/
def closeCurrent (s : WinState) : WinState :=
  { s with handles := s.handles.erase s.current }

/-- The cleanup loop of worker.py lines 221-225: iterate over a snapshot of
the handle list; for every handle other than the main one, switch to it
and close it. -/
def closeLoop (main : Nat) : List Nat → WinState → WinState
  | [], s => s
  | w :: ws, s =>
    if w = main then closeLoop main ws s
    else closeLoop main ws (closeCurrent (switchTo s w))

/-- The spec's `closeExtraWindowsKeeping(main)`, worker.py lines 219-228:
if more than two windows are open, switch to and close every window except
the main one; otherwise close the current window.  Either way, focus the
main window afterwards. -/
def closeExtraWindowsKeeping (s : WinState) (main : Nat) : WinState :=
  let s' := if s.handles.length > 2 then closeLoop main s.handles s else closeCurrent s
  switchTo s' main

/-- The attribute names the argparse namespace `args` carries, read off
`get_parser` (worker.py lines 40-53): positional `uname`, `pwd` and the
declared options (argparse derives the attribute from the long option
name; `-v` stores to `v`). -/
def argsAttrNames : List String :=
  ["uname", "pwd", "driver", "logDir", "v", "dry", "windowTries",
   "windowCheckWait", "url", "implicitWait", "base64"]

/-- Python `getattr`-style access `args.<name>` succeeds exactly when the
name is a declared argument attribute; otherwise AttributeError. -/
def argsHasAttr (name : String) : Bool :=
  argsAttrNames.contains name

/-- `driver.switch_to.window(driver.window_handles[1])` of worker.py line
198, on a window-count model: indexing position 1 of the handle list
requires at least two open handles. -/
def switchToHandle (winCount : Nat) : Except PyErr Unit :=
  if 2 ≤ winCount then .ok () else .error .indexError

/-- The Course record built at worker.py line 178 from the six fixed
cells of a course row: `Course(course_data[0].text.strip(),
course_data[1].text.strip(), get_float(course_data[2].text),
get_float(course_data[3].text), completion, [])`. -/
def courseOfCells (c0 c1 c2 c3 c4 : Cell) : Course :=
  { ID := pyStrip c0.text
    name := pyStrip c1.text
    grade := get_float c2.text
    credits := get_float c3.text
    completion := completionFromRaw c4.text
    Exams := [] }

/-- Environment of one course row: the row's cells, the window-count
behavior of clicking its trigger cell (`wins k` = open handles after `k`
clicks), and the rows of the exam table shown in its secondary window. -/
structure CoursePage where
  row : List Cell
  wins : Nat → Nat
  examRows : List (List Cell)

/-- One iteration of the course loop, worker.py lines 170-216: derive the
completion status (lines 172-177), build the Course (line 178), run the
window-open loop (lines 181-191) and return the attempts consumed.  If no
secondary window opened (line 193), the code at line 194 evaluates an
f-string containing `args.WindowCheckWait` - an attribute argparse never
defined (the option is `windowCheckWait`) - so an AttributeError is
raised before `failures += 1`; the `.ok (none, i)` skip outcome is
unreachable.  Otherwise focus the secondary window (line 198), parse the
exam table (lines 201-213), attach the exams (line 215) and emit the
course. -/
def processCourse (tries : Nat) (p : CoursePage) : Except PyErr (Option Course × Nat) :=
  match pyIndexE p.row 4 with
  | .error e => .error e
  | .ok c4 =>
    match pyIndexE p.row 0 with
    | .error e => .error e
    | .ok c0 =>
      match pyIndexE p.row 1 with
      | .error e => .error e
      | .ok c1 =>
        match pyIndexE p.row 2 with
        | .error e => .error e
        | .ok c2 =>
          match pyIndexE p.row 3 with
          | .error e => .error e
          | .ok c3 =>
            match openWindowLoop tries p.row p.wins with
            | .error e => .error e
            | .ok i =>
              if p.wins i = 1 then
                if argsHasAttr "WindowCheckWait" then .ok (none, i)
                else .error .attributeError
              else
                match switchToHandle (p.wins i) with
                | .error e => .error e
                | .ok _ =>
                  .ok (some { courseOfCells c0 c1 c2 c3 c4 with
                                Exams := parseExamRows p.examRows (-1) }, i)

/-- Environment of one semester: the rows of its course table, including
the trailing summary row that the slice `[:-1]` at line 170 drops. -/
structure SemesterPage where
  rows : List CoursePage

/-- The course loop of one semester, worker.py lines 170-216, threading
the accumulated course list and the retry/failure counters: the attempts
of every course are added to `retries` (line 191); a skipped course would
increment `failures` (line 195) and emit nothing; an emitted course is
appended to the list (line 216). -/
def processRows (tries : Nat) :
    List CoursePage → List Course → Nat → Nat → Except PyErr (List Course × Nat × Nat)
  | [], acc, r, f => .ok (acc, r, f)
  | p :: ps, acc, r, f =>
    match processCourse tries p with
    | .error e => .error e
    | .ok (c?, i) =>
      match c? with
      | none => processRows tries ps acc (r + i) (f + 1)
      | some c => processRows tries ps (acc ++ [c]) (r + i) f

/-- The semester loop, worker.py lines 165-228: for each semester, run the
course loop over its rows minus the trailing summary row. -/
def runSemesters (tries : Nat) :
    List SemesterPage → List Course → Nat → Nat → Except PyErr (List Course × Nat × Nat)
  | [], acc, r, f => .ok (acc, r, f)
  | s :: ss, acc, r, f =>
    match processRows tries s.rows.dropLast acc r f with
    | .error e => .error e
    | .ok (acc', r', f') => runSemesters tries ss acc' r' f'

/-- The scrape from just after login to `Done`: empty course list, the
retry counter seeded by the login loop (line 140), zero failures.  Returns
the final course list and counters (worker.py lines 230-237). -/
def scrapeCourses (tries : Nat) (sems : List SemesterPage) (r0 : Nat) :
    Except PyErr (List Course × Nat × Nat) :=
  runSemesters tries sems [] r0 0

/-- The Course a fully processed row yields: the record of line 178 with
the exams parsed in its secondary window attached (line 215).  Total
companion of `processCourse` for stating what a successful run emits. -/
def expectedCourse (p : CoursePage) : Course :=
  { courseOfCells (p.row.getD 0 defaultCell) (p.row.getD 1 defaultCell)
      (p.row.getD 2 defaultCell) (p.row.getD 3 defaultCell) (p.row.getD 4 defaultCell) with
    Exams := parseExamRows p.examRows (-1) }

/-- All course rows a run traverses, in on-page order: per semester, the
row list minus the trailing summary row, concatenated across semesters. -/
def allCourseRows : List SemesterPage → List CoursePage
  | [] => []
  | s :: ss => s.rows.dropLast ++ allCourseRows ss

/-- Exit-status enumeration of worker.py lines 24-27. -/
inductive STATUSCODE where
  | OK
  | INVALID_LOGIN
  | CRASH
deriving DecidableEq

/-- The `value` of each status, worker.py lines 25-27. -/
def STATUSCODE.value : STATUSCODE → Int
  | .OK => 0
  | .INVALID_LOGIN => -1
  | .CRASH => -2

/-- The structured error object `doErrorExit` serializes to stderr,
worker.py lines 31-35: always an exitCode, plus the message when one is
given. -/
structure ErrorObject where
  exitCode : Int
  message : Option String
deriving DecidableEq

/-- `doErrorExit` of worker.py lines 30-37: emit the structured error
object on the error channel and terminate the process with the code's
value. -/
def doErrorExit (code : STATUSCODE) (msg : Option String) : ErrorObject × Int :=
  ({ exitCode := code.value, message := msg }, code.value)

/-- The spec's two-valued login classification. -/
inductive LoginOutcome where
  | Success
  | InvalidCredentials
deriving DecidableEq

/-- The exact failure message worker.py line 152 compares against. -/
def wrongCredentialsMessage : String := "Benutzername oder Passwort falsch"

/-- `classifyLoginOutcome` read off worker.py lines 151-156: the
environment is the text of the element at the checked XPath (`none` when
the element is absent and `NoSuchElementException` is caught at line 155).
InvalidCredentials exactly when the element exists with the known
message text; otherwise Success. -/
def classifyLoginOutcome (elemText : Option String) : LoginOutcome :=
  match elemText with
  | some t => if t = wrongCredentialsMessage then .InvalidCredentials else .Success
  | none => .Success

/-- Result of the post-submit login check: either the scrape proceeds, or
the run terminates with a structured error object and an exit code. -/
inductive LoginStepResult where
  | proceed
  | terminated (err : ErrorObject) (code : Int)
deriving DecidableEq

/-- The post-submit check, worker.py lines 151-156: on InvalidCredentials
call `doErrorExit(STATUSCODE.INVALID_LOGIN)` (no message argument);
otherwise fall through to the scrape. -/
def loginCheck (elemText : Option String) : LoginStepResult :=
  match classifyLoginOutcome elemText with
  | .InvalidCredentials =>
    .terminated (doErrorExit .INVALID_LOGIN none).1 (doErrorExit .INVALID_LOGIN none).2
  | .Success => .proceed

/-! Concrete demo environments used by the closed witness and
counterexample theorems.  Numeric cells use the portal's "-" placeholder,
whose parse degrades to the -1 sentinel. -/

/-- A well-formed six-cell course row. -/
def demoRow6 : List Cell :=
  [⟨" T1000 ", "tbdata"⟩, ⟨"Course A", "tbdata"⟩, ⟨"-", ""⟩,
   ⟨"-", ""⟩, ⟨"bestanden", ""⟩, ⟨"Details", ""⟩]

/-- Window behavior whose secondary window first appears after the second
click. -/
def c2Wins (j : Nat) : Nat := if j < 2 then 1 else 2

/-- Login-page behavior where the username field appears on the attempt
with index 2, i.e. the third attempt. -/
def c10Found (j : Nat) : Bool := j == 2

/-- Window behavior whose secondary window first appears after the third
click. -/
def c10Wins (j : Nat) : Nat := if j < 3 then 1 else 2

/-- The exam-table rows of the claim's concrete scenario: a "Versuch 1"
header, a marked data row, a "Versuch 2" header, a second marked data
row. -/
def c3Rows : List (List Cell) :=
  [[⟨"Versuch 1", "tbhead"⟩],
   [⟨"Exam A", "tbdata"⟩, ⟨"01.01.2021", "tbdata"⟩, ⟨"bestanden", "tbdata"⟩,
    ⟨"-", "tbdata"⟩, ⟨"", "tbdata"⟩, ⟨"", "tbdata"⟩],
   [⟨"Versuch 2", "tbhead"⟩],
   [⟨"Exam B", "tbdata"⟩, ⟨"02.02.2021", "tbdata"⟩, ⟨"offen", "tbdata"⟩,
    ⟨"", "tbdata"⟩, ⟨"", "tbdata"⟩, ⟨"", "tbdata"⟩]]

/-- First exam of the concrete scenario, under attempt 1. -/
def c3ExamA : Exam :=
  { attemptNumber := 1, name := "Exam A", date := "01.01.2021",
    status := "bestanden", grade := -1 }

/-- Second exam of the concrete scenario, under attempt 2. -/
def c3ExamB : Exam :=
  { attemptNumber := 2, name := "Exam B", date := "02.02.2021",
    status := "offen", grade := -1 }

/-- A six-cell marked data row whose first cell text also starts with
"Versuch". -/
def c9Row : List Cell :=
  [⟨"Versuch 9", "tbdata"⟩, ⟨"a", ""⟩, ⟨"b", ""⟩, ⟨"1", ""⟩, ⟨"", ""⟩, ⟨"", ""⟩]

/-- A course row whose secondary window never opens. -/
def c1FailPage : CoursePage :=
  { row := [⟨"T9000", ""⟩, ⟨"Course X", ""⟩, ⟨"-", ""⟩, ⟨"-", ""⟩,
            ⟨"", ""⟩, ⟨"Details", ""⟩],
    wins := fun _ => 1, examRows := [] }

/-- A healthy course row after the failing one; its window opens on the
first click. -/
def c1NextPage : CoursePage :=
  { row := [⟨"T9001", ""⟩, ⟨"Course Y", ""⟩, ⟨"-", ""⟩, ⟨"-", ""⟩,
            ⟨"bestanden", ""⟩, ⟨"Details", ""⟩],
    wins := fun j => if j = 0 then 1 else 2, examRows := [] }

/-- The trailing summary row of the c1 semester table. -/
def c1Footer : CoursePage := { row := [], wins := fun _ => 1, examRows := [] }

/-- Semester whose first course row's window never opens. -/
def c1Sem : SemesterPage := { rows := [c1FailPage, c1NextPage, c1Footer] }

/-- Exam table of the first demo course: one attempt header and one marked
data row. -/
def c7ExamRowsA : List (List Cell) :=
  [[⟨"Versuch 1", "tbhead"⟩],
   [⟨"Klausur A", "tbdata"⟩, ⟨"01.01.2021", "tbdata"⟩, ⟨"bestanden", "tbdata"⟩,
    ⟨"-", "tbdata"⟩, ⟨"", "tbdata"⟩, ⟨"", "tbdata"⟩]]

/-- First demo course row; its window opens on the first click. -/
def c7PageA : CoursePage :=
  { row := demoRow6, wins := fun j => if j = 0 then 1 else 2,
    examRows := c7ExamRowsA }

/-- Second demo course row; its window opens on the first click, empty
exam table. -/
def c7PageB : CoursePage :=
  { row := [⟨"T2000", ""⟩, ⟨"Course B", ""⟩, ⟨"-", ""⟩, ⟨"-", ""⟩,
            ⟨"", ""⟩, ⟨"Details", ""⟩],
    wins := fun j => if j = 0 then 1 else 2, examRows := [] }

/-- The trailing summary row of the demo semester table. -/
def c7Footer : CoursePage := { row := [], wins := fun _ => 1, examRows := [] }

/-- One semester with two course rows plus one footer row. -/
def c7Sem : SemesterPage := { rows := [c7PageA, c7PageB, c7Footer] }

/-- The Course record the first demo row must produce. -/
def c7CourseA : Course :=
  { ID := "T1000", name := "Course A", grade := -1, credits := -1,
    completion := .Passed,
    Exams := [{ attemptNumber := 1, name := "Klausur A", date := "01.01.2021",
                status := "bestanden", grade := -1 }] }

/-- The Course record the second demo row must produce. -/
def c7CourseB : Course :=
  { ID := "T2000", name := "Course B", grade := -1, credits := -1,
    completion := .Unknown, Exams := [] }


/-! Helper lemmas. -/

theorem pyIndexE_getD {α : Type} {l : List α} {n : Nat} {a : α}
    (h : pyIndexE l n = .ok a) (d : α) : l.getD n d = a := by
  unfold pyIndexE at h
  cases hx : l[n]? with
  | none => rw [hx] at h; simp at h
  | some b =>
    rw [hx] at h
    simp only [Except.ok.injEq] at h
    subst h
    simp [List.getD_eq_getElem?_getD, hx]

theorem pyReplaceCommaDot_idem (s : String) :
    pyReplaceCommaDot (pyReplaceCommaDot s) = pyReplaceCommaDot s := by
  unfold pyReplaceCommaDot
  refine congrArg String.mk ?_
  show (s.data.map commaToDot).map commaToDot = s.data.map commaToDot
  rw [List.map_map]
  refine List.map_congr_left ?_
  intro c _
  show commaToDot (commaToDot c) = commaToDot c
  unfold commaToDot
  by_cases hc : c = ','
  · simp [hc]
  · simp [hc]

theorem lastHeaderCtx_append (past : List (List Cell)) (r : List Cell) :
    lastHeaderCtx (past ++ [r]) =
      if isHeaderRow r then headerAttempt r else lastHeaderCtx past := by
  unfold lastHeaderCtx
  rw [List.reverse_append]
  by_cases h : isHeaderRow r = true
  · simp only [List.reverse_cons, List.reverse_nil, List.nil_append, List.singleton_append]
    rw [List.find?_cons_of_pos _ h]
    simp [h]
  · have h' : isHeaderRow r = false := by simpa using h
    simp only [List.reverse_cons, List.reverse_nil, List.nil_append, List.singleton_append]
    rw [List.find?_cons_of_neg _ (by simp [h'])]
    simp [h']

theorem parseExamRows_eq_specGo (rows : List (List Cell)) :
    ∀ past, parseExamRows rows (lastHeaderCtx past) = specExamsGo past rows := by
  induction rows with
  | nil => intro past; rfl
  | cons r rs ih =>
    intro past
    by_cases hd : isDataRow r = true
    · have hh : isHeaderRow r = false := by simp [isHeaderRow, hd]
      have hrec := ih (past ++ [r])
      rw [lastHeaderCtx_append, hh] at hrec
      simp only [parseExamRows, specExamsGo, hd, if_true, if_false, Bool.false_eq_true,
        List.singleton_append]
      exact congrArg _ hrec
    · have hd' : isDataRow r = false := by simpa using hd
      by_cases hv : isVersuchRow r = true
      · have hh : isHeaderRow r = true := by simp [isHeaderRow, hd', hv]
        have hrec := ih (past ++ [r])
        rw [lastHeaderCtx_append, hh] at hrec
        simp only [parseExamRows, specExamsGo, hd', hv, Bool.false_eq_true, if_false, if_true,
          List.nil_append]
        simpa using hrec
      · have hv' : isVersuchRow r = false := by simpa using hv
        have hh : isHeaderRow r = false := by simp [isHeaderRow, hd', hv']
        have hrec := ih (past ++ [r])
        rw [lastHeaderCtx_append, hh] at hrec
        simp only [parseExamRows, specExamsGo, hd', hv', Bool.false_eq_true, if_false,
          List.nil_append]
        exact hrec

theorem openWindowLoopAux_never {cells : List Cell} {wins : Nat → Nat}
    (h5 : 5 < cells.length) (hw : ∀ j, wins j = 1) :
    ∀ fuel i, openWindowLoopAux cells wins fuel i = .ok (i + fuel) := by
  intro fuel
  induction fuel with
  | zero => intro i; rfl
  | succ n ih =>
    intro i
    have hidx : cells[5]? = some cells[5] := List.getElem?_eq_getElem h5
    simp only [openWindowLoopAux, pyIndexE, hidx, hw i, hw (i + 1), if_true, ne_eq,
      not_true_eq_false, if_false, ih (i + 1)]
    have : i + 1 + n = i + (n + 1) := by omega
    simp [this]

theorem openWindowLoopAux_opens {cells : List Cell} {wins : Nat → Nat} {k : Nat}
    (h5 : 5 < cells.length) (hw1 : ∀ j, j < k → wins j = 1) (hwk : wins k ≠ 1) :
    ∀ fuel i, i < k → k ≤ i + fuel → openWindowLoopAux cells wins fuel i = .ok k := by
  intro fuel
  induction fuel with
  | zero => intro i hik hk; omega
  | succ n ih =>
    intro i hik hk
    have hwi := hw1 i hik
    have hidx : cells[5]? = some cells[5] := List.getElem?_eq_getElem h5
    simp only [openWindowLoopAux, pyIndexE, hidx, hwi, if_true]
    by_cases hk1 : i + 1 = k
    · rw [hk1]
      simp [hwk]
    · have hlt : i + 1 < k := by omega
      have := hw1 (i + 1) hlt
      simp only [this, ne_eq, not_true_eq_false, if_false]
      exact ih (i + 1) hlt (by omega)

theorem loginPageLoopAux_finds {found : Nat → Bool} {m : Nat}
    (hfm : found m = true) (hbefore : ∀ j, j < m → found j = false) :
    ∀ fuel i, i ≤ m → m < i + fuel → loginPageLoopAux found fuel i = (m, true) := by
  intro fuel
  induction fuel with
  | zero => intro i h1 h2; omega
  | succ n ih =>
    intro i h1 h2
    by_cases him : i = m
    · subst him
      simp [loginPageLoopAux, hfm]
    · have hlt : i < m := by omega
      have := hbefore i hlt
      simp only [loginPageLoopAux, this, Bool.false_eq_true, if_false]
      exact ih (i + 1) (by omega) (by omega)

theorem argsHasAttr_typo : argsHasAttr "WindowCheckWait" = false := by decide

theorem processCourse_ok {tries : Nat} {p : CoursePage} {c? : Option Course} {i : Nat}
    (h : processCourse tries p = .ok (c?, i)) : c? = some (expectedCourse p) := by
  unfold processCourse at h
  cases h4 : pyIndexE p.row 4 with
  | error e => rw [h4] at h; simp at h
  | ok c4 =>
  rw [h4] at h
  cases h0 : pyIndexE p.row 0 with
  | error e => rw [h0] at h; simp at h
  | ok c0 =>
  rw [h0] at h
  cases h1 : pyIndexE p.row 1 with
  | error e => rw [h1] at h; simp at h
  | ok c1 =>
  rw [h1] at h
  cases h2 : pyIndexE p.row 2 with
  | error e => rw [h2] at h; simp at h
  | ok c2 =>
  rw [h2] at h
  cases h3 : pyIndexE p.row 3 with
  | error e => rw [h3] at h; simp at h
  | ok c3 =>
  rw [h3] at h
  cases hL : openWindowLoop tries p.row p.wins with
  | error e => rw [hL] at h; simp at h
  | ok j =>
  rw [hL] at h
  by_cases hw : p.wins j = 1
  · simp [hw, argsHasAttr_typo] at h
  · cases hs : switchToHandle (p.wins j) with
    | error e => simp [hw, hs] at h
    | ok u =>
    simp [hw, hs] at h
    rw [← h.1]
    unfold expectedCourse
    rw [pyIndexE_getD h0, pyIndexE_getD h1, pyIndexE_getD h2, pyIndexE_getD h3,
      pyIndexE_getD h4]

theorem processRows_ok {tries : Nat} :
    ∀ (ps : List CoursePage) (acc : List Course) (r f : Nat) {cs : List Course} {r' f' : Nat},
      processRows tries ps acc r f = .ok (cs, r', f') →
      cs = acc ++ ps.map expectedCourse ∧ f' = f := by
  intro ps
  induction ps with
  | nil =>
    intro acc r f cs r' f' h
    simp only [processRows, Except.ok.injEq, Prod.mk.injEq] at h
    exact ⟨by simp [h.1.symm], h.2.2.symm⟩
  | cons p ps ih =>
    intro acc r f cs r' f' h
    simp only [processRows] at h
    cases hp : processCourse tries p with
    | error e => rw [hp] at h; simp at h
    | ok pr =>
      rw [hp] at h
      obtain ⟨c?, i⟩ := pr
      have hc := processCourse_ok hp
      subst hc
      simp only at h
      obtain ⟨hcs, hf⟩ := ih (acc ++ [expectedCourse p]) (r + i) f h
      refine ⟨?_, hf⟩
      rw [hcs]
      simp

theorem runSemesters_ok {tries : Nat} :
    ∀ (sems : List SemesterPage) (acc : List Course) (r f : Nat)
      {cs : List Course} {r' f' : Nat},
      runSemesters tries sems acc r f = .ok (cs, r', f') →
      cs = acc ++ (allCourseRows sems).map expectedCourse ∧ f' = f := by
  intro sems
  induction sems with
  | nil =>
    intro acc r f cs r' f' h
    simp only [runSemesters, Except.ok.injEq, Prod.mk.injEq] at h
    exact ⟨by simp [h.1.symm, allCourseRows], h.2.2.symm⟩
  | cons s ss ih =>
    intro acc r f cs r' f' h
    simp only [runSemesters] at h
    cases hp : processRows tries s.rows.dropLast acc r f with
    | error e => rw [hp] at h; simp at h
    | ok tr =>
      rw [hp] at h
      obtain ⟨acc', r1, f1⟩ := tr
      obtain ⟨hacc, hf1⟩ := processRows_ok _ _ _ _ hp
      obtain ⟨hcs, hf⟩ := ih acc' r1 f1 h
      subst hacc hf1
      refine ⟨?_, hf⟩
      rw [hcs]
      simp [allCourseRows]

theorem closeLoop_handles (main : Nat) :
    ∀ (l : List Nat) (s : WinState), s.handles.Nodup →
      (closeLoop main l s).handles =
        s.handles.filter (fun h => h == main || !(l.contains h)) := by
  intro l
  induction l with
  | nil =>
    intro s _
    simp [closeLoop]
  | cons w ws ih =>
    intro s hnd
    by_cases hw : w = main
    · subst hw
      rw [closeLoop, if_pos rfl, ih s hnd]
      refine List.filter_congr ?_
      intro x _
      by_cases hxw : x = w
      · simp [hxw]
      · simp [hxw]
    · rw [closeLoop, if_neg hw]
      have hnd' : ((closeCurrent (switchTo s w)).handles).Nodup := by
        simpa [closeCurrent, switchTo] using hnd.erase w
      rw [ih _ hnd']
      show (s.handles.erase w).filter _ = _
      rw [hnd.erase_eq_filter w, List.filter_filter]
      refine List.filter_congr ?_
      intro x _
      by_cases hxw : x = w
      · subst hxw
        have : (x == main) = false := by simp [hw]
        simp [this]
      · simp [hxw]

theorem filter_beq_nodup_mem {l : List Nat} {m : Nat} (hnd : l.Nodup) (hm : m ∈ l) :
    l.filter (fun h => h == m) = [m] := by
  induction l with
  | nil => cases hm
  | cons a t ih =>
    by_cases ham : a = m
    · rw [List.filter_cons_of_pos (by simp [ham])]
      have hnotin : a ∉ t := (List.nodup_cons.mp hnd).1
      have ht0 : t.filter (fun h => h == m) = [] := by
        rw [List.filter_eq_nil_iff]
        intro x hx
        simp only [beq_iff_eq]
        intro hxm
        exact hnotin (ham.symm ▸ hxm ▸ hx)
      rw [ht0, ham]
    · rw [List.filter_cons_of_neg (by simp [ham])]
      have hmt : m ∈ t := by
        rcases List.mem_cons.mp hm with h1 | h1
        · exact absurd h1.symm ham
        · exact h1
      exact ih (List.nodup_cons.mp hnd).2 hmt

/-! Claim theorems. -/

/-- C1 (code bug): the claim and the spec say that a course whose secondary
window never opens increments the failure counter by 1 and the scrape
continues with the next course.  The code instead aborts: the error-log
f-string at worker.py line 194 reads `args.WindowCheckWait`, an attribute
argparse never defined (the declared option is `windowCheckWait`), so an
AttributeError is raised before `failures += 1` and propagates out of the
scrape - uncaught, since main only catches NoSuchElementException.
Concretely: a semester whose first course window never opens makes the
whole scrape return the AttributeError; the failure counter is never
incremented and the following healthy course is never processed. -/
theorem c1_window_failure_raises_attribute_error :
    scrapeCourses 3 [c1Sem] 0 = .error .attributeError ∧
    argsHasAttr "windowCheckWait" = true ∧ argsHasAttr "WindowCheckWait" = false :=
  ⟨rfl, rfl, rfl⟩

/-- C2: for every attempt budget N, if the trigger never makes a second
window appear the open loop consumes exactly N attempts and reports
opened = false with attemptsUsed = N; if the second window first appears
after click k with 1 <= k <= N, the loop stops early and reports
opened = true with attemptsUsed = k. -/
theorem c2_open_secondary_window_attempts (N k : Nat) (cells : List Cell)
    (wins : Nat → Nat) (h5 : 5 < cells.length) :
    ((∀ j, wins j = 1) → openSecondaryWindow N cells wins = .ok (false, N)) ∧
    (1 ≤ k → k ≤ N → (∀ j, j < k → wins j = 1) → wins k ≠ 1 →
      openSecondaryWindow N cells wins = .ok (true, k)) := by
  constructor
  · intro hw
    unfold openSecondaryWindow openWindowLoop
    rw [openWindowLoopAux_never h5 hw N 0]
    simp [hw N]
  · intro hk1 hkN hw1 hwk
    unfold openSecondaryWindow openWindowLoop
    rw [openWindowLoopAux_opens h5 hw1 hwk N 0 (by omega) (by omega)]
    simp [hwk]

/-- Witness for C2: on a 6-cell row whose window appears after the second
click, a budget of 3 reports opened = true after exactly 2 attempts. -/
theorem c2_witness : openSecondaryWindow 3 demoRow6 c2Wins = .ok (true, 2) :=
  (c2_open_secondary_window_attempts 3 2 demoRow6 c2Wins (by decide)).2
    (by decide) (by decide) (by decide) (by decide)

/-- C3: the exam parser emits one Exam per marked 6-cell row, tagged with
the attempt number of the most recent preceding header row (or -1 when no
header has been seen), skips rows matching neither shape, and preserves
row order - stated as equality with the spec-side parser `specExams`,
which maps each data row to the attempt context of the rows before it.
In particular, the scenario header "Versuch 1", data row A, header
"Versuch 2", data row B yields exactly the two Exams with attempt numbers
1 and 2, in order. -/
theorem c3_exam_parsing_matches_spec :
    (∀ rows : List (List Cell), parseExamRows rows (-1) = specExams rows) ∧
    parseExamRows c3Rows (-1) = [c3ExamA, c3ExamB] :=
  ⟨fun rows => parseExamRows_eq_specGo rows [], rfl⟩

/-- C4: the window cleanup keeps the main window: with more than two
windows open it closes every window except main, otherwise it closes
exactly the current (non-main) window; it always ends with main still
open and focused. -/
theorem c4_close_extra_windows_keeps_main (s : WinState) (main : Nat)
    (hmem : main ∈ s.handles) (hnd : s.handles.Nodup)
    (hcur : s.handles.length ≤ 2 → s.current ≠ main) :
    (closeExtraWindowsKeeping s main).current = main ∧
    main ∈ (closeExtraWindowsKeeping s main).handles ∧
    (2 < s.handles.length → (closeExtraWindowsKeeping s main).handles = [main]) ∧
    (s.handles.length ≤ 2 →
      (closeExtraWindowsKeeping s main).handles = s.handles.erase s.current) := by
  have hcurr : (closeExtraWindowsKeeping s main).current = main := rfl
  have hh : (closeExtraWindowsKeeping s main).handles =
      (if s.handles.length > 2 then closeLoop main s.handles s else closeCurrent s).handles :=
    rfl
  by_cases hlen : s.handles.length > 2
  · have hbig : (closeExtraWindowsKeeping s main).handles = [main] := by
      rw [hh, if_pos hlen, closeLoop_handles main s.handles s hnd]
      have h2 : s.handles.filter (fun h => h == main || !(s.handles.contains h)) =
          s.handles.filter (fun h => h == main) := by
        refine List.filter_congr ?_
        intro x hx
        simp [hx]
      rw [h2]
      exact filter_beq_nodup_mem hnd hmem
    refine ⟨hcurr, ?_, fun _ => hbig, fun hle => absurd hle (by omega)⟩
    rw [hbig]
    exact List.mem_singleton.mpr rfl
  · have hle : s.handles.length ≤ 2 := by omega
    have hsmall : (closeExtraWindowsKeeping s main).handles = s.handles.erase s.current := by
      rw [hh, if_neg hlen]
      rfl
    refine ⟨hcurr, ?_, fun hgt => absurd hgt hlen, fun _ => hsmall⟩
    rw [hsmall]
    exact (List.mem_erase_of_ne (hcur hle).symm).mpr hmem

/-- Witness for C4: three windows open (main = 0, current = 1, extra = 2):
cleanup leaves exactly the main window, focused. -/
theorem c4_witness :
    (closeExtraWindowsKeeping ⟨[0, 1, 2], 1⟩ 0).current = 0 ∧
    (closeExtraWindowsKeeping ⟨[0, 1, 2], 1⟩ 0).handles = [0] := by
  have h := c4_close_extra_windows_keeps_main ⟨[0, 1, 2], 1⟩ 0
    (by decide) (by decide) (by decide)
  exact ⟨h.1, h.2.2.1 (by decide)⟩

/-- C5 counterexample: the claim quantifies over raw completion-status
strings and says every non-empty string other than "bestanden" maps to
Failed; but the code strips the text first, so the non-empty string " "
maps to Unknown, not Failed. -/
theorem c5_counterexample :
    (" " ≠ "" ∧ " " ≠ "bestanden") ∧
    completionFromRaw " " = CourseCompletion.Unknown ∧
    completionFromRaw " " ≠ CourseCompletion.Failed := by decide

/-- C5 amended: the derivation applies to the whitespace-stripped text:
Unknown when the string strips to empty, Passed when it strips to exactly
"bestanden", Failed when the stripped value is any other non-empty
string. -/
theorem c5_completion_amended (raw : String) :
    (pyStrip raw = "" → completionFromRaw raw = CourseCompletion.Unknown) ∧
    (pyStrip raw = "bestanden" → completionFromRaw raw = CourseCompletion.Passed) ∧
    (pyStrip raw ≠ "" → pyStrip raw ≠ "bestanden" →
      completionFromRaw raw = CourseCompletion.Failed) := by
  refine ⟨?_, ?_, ?_⟩
  · intro h
    unfold completionFromRaw
    rw [h]
    decide
  · intro h
    unfold completionFromRaw
    rw [h]
    decide
  · intro h1 h2
    unfold completionFromRaw
    rw [if_pos h1, if_neg h2]

/-- Witness for C5's amended statement at three concrete inputs. -/
theorem c5_witness :
    completionFromRaw "   " = CourseCompletion.Unknown ∧
    completionFromRaw " bestanden " = CourseCompletion.Passed ∧
    completionFromRaw "nicht bestanden" = CourseCompletion.Failed :=
  ⟨(c5_completion_amended "   ").1 (by decide),
   (c5_completion_amended " bestanden ").2.1 (by decide),
   (c5_completion_amended "nicht bestanden").2.2 (by decide) (by decide)⟩

/-- C6: `get_float` never raises (the try/except yields an ok value for
every input), its value on any string equals its value on the
comma-to-dot normalized string (so a decimal-comma literal parses to the
same number as its decimal-point form), and whenever the normalized
string does not parse as a float the sentinel -1 is returned. -/
theorem c6_get_float_total_comma_sentinel (s : String) :
    get_floatTry s = .ok (get_float s) ∧
    get_float s = get_float (pyReplaceCommaDot s) ∧
    (pyFloat? (pyReplaceCommaDot s) = none → get_float s = -1) := by
  refine ⟨?_, ?_, ?_⟩
  · unfold get_floatTry get_float pyFloatExc
    cases h : pyFloat? (pyReplaceCommaDot s) <;> simp [h]
  · unfold get_float
    rw [pyReplaceCommaDot_idem]
  · intro h
    unfold get_float
    rw [h]

/-- Witness for C6: the comma literal "1,3" parses to the same value as
"1.3", and the placeholder "-" degrades to -1. -/
theorem c6_witness : get_float "1,3" = get_float "1.3" ∧ get_float "-" = -1 :=
  ⟨(by decide : pyReplaceCommaDot "1,3" = "1.3") ▸
      (c6_get_float_total_comma_sentinel "1,3").2.1,
   (c6_get_float_total_comma_sentinel "-").2.2 (by decide)⟩

/-- C7: every run of the scrape loop that returns Ok emits exactly the
course records of the traversed rows (per semester the rows minus the
trailing summary row, concatenated across semesters, each with its own
parsed exam sequence), in on-page order; the failure counter of such a
run is 0; and when those records are pairwise distinct the output list
has no duplicates. -/
theorem c7_done_run_course_list (tries : Nat) (sems : List SemesterPage) (r0 : Nat)
    (cs : List Course) (r f : Nat)
    (h : scrapeCourses tries sems r0 = .ok (cs, r, f)) :
    cs = (allCourseRows sems).map expectedCourse ∧
    f = 0 ∧
    (((allCourseRows sems).map expectedCourse).Nodup → cs.Nodup) := by
  obtain ⟨hcs, hf⟩ := runSemesters_ok sems [] r0 0 h
  have hcs' : cs = (allCourseRows sems).map expectedCourse := by simpa using hcs
  exact ⟨hcs', hf, fun hnd => hcs' ▸ hnd⟩

/-- Witness for C7: one semester with two course rows plus one footer row
produces exactly the two expected Course records in row order, with
failure counter 0 and both window-open attempts counted. -/
theorem c7_witness :
    [c7CourseA, c7CourseB] = (allCourseRows [c7Sem]).map expectedCourse ∧
    [c7CourseA, c7CourseB].Nodup := by
  have h := c7_done_run_course_list 3 [c7Sem] 0 [c7CourseA, c7CourseB] 2 0 rfl
  exact ⟨h.1, h.2.2 (h.1 ▸ (by decide : ([c7CourseA, c7CourseB]).Nodup))⟩

/-- C8: the login check classifies InvalidCredentials exactly when the
checked page element exists and carries the known wrong-credentials
message; in that case the run terminates with the structured error object
{exitCode := -1} on the error channel and exit code -1; when the element
is absent the scrape proceeds. -/
theorem c8_login_classification (t? : Option String) :
    (classifyLoginOutcome t? = LoginOutcome.InvalidCredentials ↔
      t? = some wrongCredentialsMessage) ∧
    (classifyLoginOutcome t? = LoginOutcome.InvalidCredentials →
      loginCheck t? = .terminated ⟨-1, none⟩ (-1)) ∧
    (t? = none → loginCheck t? = .proceed) := by
  refine ⟨⟨?_, ?_⟩, ?_, ?_⟩
  · intro h
    cases t? with
    | none => simp [classifyLoginOutcome] at h
    | some t =>
      by_cases ht : t = wrongCredentialsMessage
      · rw [ht]
      · simp [classifyLoginOutcome, ht] at h
  · rintro rfl
    simp [classifyLoginOutcome]
  · intro h
    unfold loginCheck
    rw [h]
    rfl
  · rintro rfl
    rfl

/-- Witness for C8: the exact message terminates with exit code -1 and the
bare error object; an absent element proceeds. -/
theorem c8_witness :
    loginCheck (some wrongCredentialsMessage) =
      LoginStepResult.terminated ⟨-1, none⟩ (-1) ∧
    loginCheck none = LoginStepResult.proceed :=
  ⟨(c8_login_classification (some wrongCredentialsMessage)).2.1 (by decide),
   (c8_login_classification none).2.2 rfl⟩

/-- C9: a 6-cell row bearing the marker class is emitted as an Exam with
the current attempt context and never updates that context, even when its
first cell's text starts with "Versuch": the data-row branch ends the
iteration with `continue`, so the header check is never reached. -/
theorem c9_data_row_takes_precedence (attempt : Int) (row : List Cell)
    (rest : List (List Cell))
    (h6 : (rowTexts row).length = 6)
    (hcls : pyInStr "tbdata" (row.headD defaultCell).cls = true)
    (_hver : pyStartswith ((rowTexts row).headD "") "Versuch" = true) :
    parseExamRows (row :: rest) attempt =
      examOfRow attempt row :: parseExamRows rest attempt := by
  have hd : isDataRow row = true := by
    unfold isDataRow
    rw [h6, hcls]
    decide
  simp [parseExamRows, hd]

/-- Witness for C9: a marked 6-cell row whose first text is "Versuch 9" is
emitted with the current context -1 and does not become a header. -/
theorem c9_witness :
    parseExamRows [c9Row] (-1) = examOfRow (-1) c9Row :: parseExamRows [] (-1) :=
  c9_data_row_takes_precedence (-1) c9Row [] (by decide) (by decide) (by decide)

/-- C10: the two retry loops count asymmetrically.  The login-page loop
increments `i` only after a failed attempt and breaks before the
increment on success, so a page that opens on attempt k (1-based) leaves
the retry counter at k-1; the course-window loop increments `i` before
its break, so a window that opens on attempt k adds k. -/
theorem c10_retry_counter_asymmetry (tries k : Nat) (found : Nat → Bool)
    (cells : List Cell) (wins : Nat → Nat) (h5 : 5 < cells.length) :
    (1 ≤ k → k ≤ tries → (∀ j, j < k - 1 → found j = false) → found (k - 1) = true →
      loginPageLoop tries found = (k - 1, true)) ∧
    (1 ≤ k → k ≤ tries → (∀ j, j < k → wins j = 1) → wins k ≠ 1 →
      openSecondaryWindow tries cells wins = .ok (true, k)) := by
  constructor
  · intro h1 h2 hb hf
    unfold loginPageLoop
    exact loginPageLoopAux_finds hf hb tries 0 (by omega) (by omega)
  · intro h1 h2 hw1 hwk
    unfold openSecondaryWindow openWindowLoop
    rw [openWindowLoopAux_opens h5 hw1 hwk tries 0 (by omega) (by omega)]
    simp [hwk]

/-- Witness for C10: a login page that opens on the third attempt leaves
the counter at 2, while a course window that opens on the third attempt
adds 3. -/
theorem c10_witness :
    loginPageLoop 5 c10Found = (2, true) ∧
    openSecondaryWindow 5 demoRow6 c10Wins = .ok (true, 3) := by
  have h := c10_retry_counter_asymmetry 5 3 c10Found demoRow6 c10Wins (by decide)
  exact ⟨h.1 (by decide) (by decide) (by decide) (by decide),
         h.2 (by decide) (by decide) (by decide) (by decide)⟩
